import Mathlib

/-!
Shallow embedding of `gantry_position_estimator` (`src/main.rs`).

The program tracks five fiducial-marker slots, smooths incoming positions,
expires stale slots, derives the facade / gantry / agv transforms, and
supports locking a snapshot of the derived transforms.  Floating-point
scalars (`f64`) are modelled as real numbers; the trigonometric functions
used by the source (`atan2`, quaternion-from-Euler via `sin`/`cos`) are
modelled by their real counterparts.
-/

namespace GantryEstimator

/-- `builtin_interfaces/Time`: seconds and nanoseconds.  Only `sec` is read
by the staleness sweep. -/
structure Time where
  sec : Int
  nanosec : Nat
deriving DecidableEq

/-- `std_msgs/Header`: timestamp and frame id. -/
structure Header where
  stamp : Time
  frame_id : String
deriving DecidableEq

/-- `geometry_msgs/Vector3` with `f64` components modelled as reals. -/
structure Vec3 where
  x : ℝ
  y : ℝ
  z : ℝ

/-- `geometry_msgs/Quaternion` (w, x, y, z) with `f64` components modelled
as reals. -/
structure Quat where
  w : ℝ
  x : ℝ
  y : ℝ
  z : ℝ

/-- `geometry_msgs/Transform`: translation and rotation. -/
structure Transform where
  translation : Vec3
  rotation : Quat

/-- `geometry_msgs/TransformStamped`: header, child frame id, transform. -/
structure TransformStamped where
  header : Header
  child_frame_id : String
  transform : Transform

/-- The shared `State` struct of `main.rs`: five marker slots, three
computed transforms, two locked transforms. -/
structure State where
  marker_0 : Option TransformStamped := none
  marker_1 : Option TransformStamped := none
  marker_2 : Option TransformStamped := none
  marker_15 : Option TransformStamped := none
  marker_5 : Option TransformStamped := none
  facade_transform : Option TransformStamped := none
  gantry_transform : Option TransformStamped := none
  agv_transform : Option TransformStamped := none
  locked_facade_transform : Option TransformStamped := none
  locked_gantry_transform : Option TransformStamped := none

/-- `State::default()`: every field `None`. -/
def initState : State := {}

/-- `filter_transform`: low-pass filter on the position; every other field
is taken from `new` (the result starts from `new.clone()` and only the
translation components are overwritten). -/
noncomputable def filter_transform (new old : TransformStamped) : TransformStamped :=
  let smooth : ℝ := 10.0
  let nx := new.transform.translation.x
  let ny := new.transform.translation.y
  let nz := new.transform.translation.z
  let ox := old.transform.translation.x
  let oy := old.transform.translation.y
  let oz := old.transform.translation.z
  let diff_x := (nx - ox) / smooth
  let diff_y := (ny - oy) / smooth
  let diff_z := (nz - oz) / smooth
  { new with transform :=
    { new.transform with translation :=
      { x := ox + diff_x, y := oy + diff_y, z := oz + diff_z } } }

/-- `update_or_set`: filter into an occupied slot, otherwise store the
observation verbatim (the "marker is live" print is pure logging). -/
noncomputable def update_or_set (new : TransformStamped) (maybe_old : Option TransformStamped) :
    Option TransformStamped :=
  match maybe_old with
  | some x => some (filter_transform new x)
  | none => some new

/-- One slot of the staleness sweep: `state.marker_i.as_ref().map(|t|
(sec - t.header.stamp.sec) > 5).unwrap_or(false)` empties the slot. -/
def expire (sec : Int) (slot : Option TransformStamped) : Option TransformStamped :=
  match slot with
  | some t => if sec - t.header.stamp.sec > 5 then none else some t
  | none => none

/-- The staleness sweep body of the periodic loop: each of the five marker
slots is checked against `sec`; no other field is touched. -/
def sweep (sec : Int) (s : State) : State :=
  { s with
    marker_0 := expire sec s.marker_0
    marker_1 := expire sec s.marker_1
    marker_2 := expire sec s.marker_2
    marker_15 := expire sec s.marker_15
    marker_5 := expire sec s.marker_5 }

/-- Rust `f64::atan2` semantics over the reals (total; `atan2 0 0 = 0`). -/
noncomputable def atan2 (y x : ℝ) : ℝ :=
  if 0 < x then Real.arctan (y / x)
  else if x < 0 then
    if 0 ≤ y then Real.arctan (y / x) + Real.pi
    else Real.arctan (y / x) - Real.pi
  else
    if 0 < y then Real.pi / 2
    else if y < 0 then -(Real.pi / 2)
    else 0

/-- cgmath's `Deg` to `Rad` conversion. -/
noncomputable def degToRad (d : ℝ) : ℝ := d * Real.pi / 180

/-- cgmath's `Quaternion::from(Euler { x, y, z })` (angles in radians). -/
noncomputable def quatFromEuler (ex ey ez : ℝ) : Quat :=
  let sx := Real.sin (ex * 0.5)
  let cx := Real.cos (ex * 0.5)
  let sy := Real.sin (ey * 0.5)
  let cy := Real.cos (ey * 0.5)
  let sz := Real.sin (ez * 0.5)
  let cz := Real.cos (ez * 0.5)
  { w := -sx * sy * sz + cx * cy * cz
  , x := sx * cy * cz + sy * sz * cx
  , y := -sx * sz * cy + sy * cx * cz
  , z := sx * sy * cz + sz * cx * cy }

/-- cgmath's quaternion Hamilton product `lhs * rhs`. -/
noncomputable def quatMul (l r : Quat) : Quat :=
  { w := l.w * r.w - l.x * r.x - l.y * r.y - l.z * r.z
  , x := l.w * r.x + l.x * r.w + l.y * r.z - l.z * r.y
  , y := l.w * r.y + l.y * r.w + l.z * r.x - l.x * r.z
  , z := l.w * r.z + l.z * r.w + l.x * r.y - l.y * r.x }

/-- The facade derivation block: requires markers 0 and 1; yaw from
marker1 − marker0; pose is marker 1's clone with frame `"facade_aruco"`,
rotation `rot * rot2`, and z set to 3.57. -/
noncomputable def derive_facade (s : State) : Option TransformStamped :=
  match s.marker_0, s.marker_1 with
  | some m0, some m1 =>
    let diff_x := m1.transform.translation.x - m0.transform.translation.x
    let diff_y := m1.transform.translation.y - m0.transform.translation.y
    let yaw := atan2 diff_y diff_x
    let rot := quatFromEuler 0 0 yaw
    let rot2 := quatFromEuler (degToRad 180) (degToRad 0) (degToRad 0)
    let new_q := quatMul rot rot2
    some { m1 with
           child_frame_id := "facade_aruco"
           transform :=
             { translation := { m1.transform.translation with z := 3.57 }
             , rotation := { w := new_q.w, x := new_q.x, y := new_q.y, z := new_q.z } } }
  | _, _ => none

/-- The gantry derivation block: requires markers 15 and 2; yaw from
marker15 − marker2; pose is marker 15's clone with frame `"gantry_aruco"`,
rotation `rot * rot2`, and z set to 1.93. -/
noncomputable def derive_gantry (s : State) : Option TransformStamped :=
  match s.marker_15, s.marker_2 with
  | some m15, some m2 =>
    let diff_x := m15.transform.translation.x - m2.transform.translation.x
    let diff_y := m15.transform.translation.y - m2.transform.translation.y
    let yaw := atan2 diff_y diff_x
    let rot := quatFromEuler 0 0 yaw
    let rot2 := quatFromEuler (degToRad 180) (degToRad 0) (degToRad 0)
    let gantry_q := quatMul rot rot2
    some { m15 with
           child_frame_id := "gantry_aruco"
           transform :=
             { translation := { m15.transform.translation with z := 1.93 }
             , rotation := { w := gantry_q.w, x := gantry_q.x, y := gantry_q.y, z := gantry_q.z } } }
  | _, _ => none

/-- The agv derivation block: if marker 5 is present the agv transform is
its clone with frame `"agv_aruco"`; there is no else branch, so an empty
slot leaves the previous agv transform in place. -/
def derive_agv (s : State) : Option TransformStamped :=
  match s.marker_5 with
  | some m5 => some { m5 with child_frame_id := "agv_aruco" }
  | none => s.agv_transform

/-- The `interested_in` list of accepted child frame ids. -/
def interested_in : List String :=
  ["aruco_0", "aruco_1", "aruco_2", "aruco_15", "aruco_5"]

/-- `if msg.child_frame_id == "aruco_0" { update_or_set(..., marker_0) }`. -/
noncomputable def upd0 (msg : TransformStamped) (s : State) : State :=
  if msg.child_frame_id = "aruco_0" then
    { s with marker_0 := update_or_set msg s.marker_0 } else s

/-- `if msg.child_frame_id == "aruco_1" { update_or_set(..., marker_1) }`. -/
noncomputable def upd1 (msg : TransformStamped) (s : State) : State :=
  if msg.child_frame_id = "aruco_1" then
    { s with marker_1 := update_or_set msg s.marker_1 } else s

/-- `if msg.child_frame_id == "aruco_2" { update_or_set(..., marker_2) }`. -/
noncomputable def upd2 (msg : TransformStamped) (s : State) : State :=
  if msg.child_frame_id = "aruco_2" then
    { s with marker_2 := update_or_set msg s.marker_2 } else s

/-- `if msg.child_frame_id == "aruco_15" { update_or_set(..., marker_15) }`. -/
noncomputable def upd15 (msg : TransformStamped) (s : State) : State :=
  if msg.child_frame_id = "aruco_15" then
    { s with marker_15 := update_or_set msg s.marker_15 } else s

/-- `if msg.child_frame_id == "aruco_5" { update_or_set(..., marker_5) }`. -/
noncomputable def upd5 (msg : TransformStamped) (s : State) : State :=
  if msg.child_frame_id = "aruco_5" then
    { s with marker_5 := update_or_set msg s.marker_5 } else s

/-- The subscription callback of `main`: filter on `interested_in`, update
the matching slot, and unconditionally re-derive facade, gantry and agv in
source order. -/
noncomputable def handle_observation (msg : TransformStamped) (s : State) : State :=
  if msg.child_frame_id ∈ interested_in then
    let s1 := upd1 msg (upd0 msg s)
    let s2 := { s1 with facade_transform := derive_facade s1 }
    let s3 := upd15 msg (upd2 msg s2)
    let s4 := { s3 with gantry_transform := derive_gantry s3 }
    let s5 := upd5 msg s4
    { s5 with agv_transform := derive_agv s5 }
  else s

/-- The trigger service handler: copy the current gantry and facade
transforms into the locked fields; respond with `success = true` and the
formatted availability message. -/
def lock_handler (s : State) : State × Bool × String :=
  let s1 := { s with
              locked_gantry_transform := s.gantry_transform
              locked_facade_transform := s.facade_transform }
  let message := "gantry: " ++ toString s1.locked_gantry_transform.isSome ++
                 ", facade: " ++ toString s1.locked_facade_transform.isSome
  (s1, true, message)

/-- Folding a stream of observations for a single marker into one slot via
`update_or_set`, starting from the empty slot. -/
noncomputable def run_slot (obs : List TransformStamped) : Option TransformStamped :=
  obs.foldl (fun slot msg => update_or_set msg slot) none

/-- A concrete observation used to instantiate universally quantified
theorems. -/
noncomputable def tEx : TransformStamped :=
  { header := { stamp := { sec := 0, nanosec := 0 }, frame_id := "camera" }
  , child_frame_id := "aruco_0"
  , transform :=
    { translation := { x := 0, y := 0, z := 0 }
    , rotation := { w := 1, x := 0, y := 0, z := 0 } } }

/-- A concrete marker-0 observation. -/
noncomputable def t0Ex : TransformStamped :=
  { tEx with child_frame_id := "aruco_0" }

/-- A concrete marker-1 observation. -/
noncomputable def t1Ex : TransformStamped :=
  { tEx with
    child_frame_id := "aruco_1",
    transform := { tEx.transform with translation := { x := 1, y := 1, z := 0 } } }

/-- A concrete marker-2 observation. -/
noncomputable def t2Ex : TransformStamped :=
  { tEx with child_frame_id := "aruco_2" }

/-- A concrete marker-15 observation. -/
noncomputable def t15Ex : TransformStamped :=
  { tEx with
    child_frame_id := "aruco_15",
    transform := { tEx.transform with translation := { x := 2, y := 1, z := 0 } } }

/-- A concrete marker-5 observation. -/
noncomputable def t5Ex : TransformStamped :=
  { tEx with
    child_frame_id := "aruco_5",
    transform := { tEx.transform with translation := { x := 2, y := 2, z := 0 } } }

/-- A state with the two facade markers live. -/
noncomputable def sEx : State :=
  { marker_0 := some t0Ex, marker_1 := some t1Ex }

/-- A state with the two gantry markers live. -/
noncomputable def sEx2 : State :=
  { marker_2 := some t2Ex, marker_15 := some t15Ex }

lemma upd0_eq (msg : TransformStamped) (s : State) :
    upd0 msg s = { s with marker_0 :=
      if msg.child_frame_id = "aruco_0" then update_or_set msg s.marker_0
      else s.marker_0 } := by
  unfold upd0; split <;> simp_all

lemma upd1_eq (msg : TransformStamped) (s : State) :
    upd1 msg s = { s with marker_1 :=
      if msg.child_frame_id = "aruco_1" then update_or_set msg s.marker_1
      else s.marker_1 } := by
  unfold upd1; split <;> simp_all

lemma upd2_eq (msg : TransformStamped) (s : State) :
    upd2 msg s = { s with marker_2 :=
      if msg.child_frame_id = "aruco_2" then update_or_set msg s.marker_2
      else s.marker_2 } := by
  unfold upd2; split <;> simp_all

lemma upd15_eq (msg : TransformStamped) (s : State) :
    upd15 msg s = { s with marker_15 :=
      if msg.child_frame_id = "aruco_15" then update_or_set msg s.marker_15
      else s.marker_15 } := by
  unfold upd15; split <;> simp_all

lemma upd5_eq (msg : TransformStamped) (s : State) :
    upd5 msg s = { s with marker_5 :=
      if msg.child_frame_id = "aruco_5" then update_or_set msg s.marker_5
      else s.marker_5 } := by
  unfold upd5; split <;> simp_all

lemma degToRad_180 : degToRad 180 = Real.pi := by
  unfold degToRad; ring

lemma degToRad_0 : degToRad 0 = 0 := by
  unfold degToRad; ring

lemma derive_facade_congr (s1 s2 : State) (h0 : s1.marker_0 = s2.marker_0)
    (h1 : s1.marker_1 = s2.marker_1) : derive_facade s1 = derive_facade s2 := by
  unfold derive_facade; rw [h0, h1]

lemma derive_gantry_congr (s1 s2 : State) (h15 : s1.marker_15 = s2.marker_15)
    (h2 : s1.marker_2 = s2.marker_2) : derive_gantry s1 = derive_gantry s2 := by
  unfold derive_gantry; rw [h15, h2]

lemma handle_facade_eq (msg : TransformStamped) (s : State)
    (h : msg.child_frame_id ∈ interested_in) :
    (handle_observation msg s).facade_transform
      = derive_facade (handle_observation msg s) := by
  unfold handle_observation
  rw [if_pos h]
  simp only [upd0_eq, upd1_eq, upd2_eq, upd15_eq, upd5_eq]
  exact derive_facade_congr _ _ rfl rfl

lemma handle_gantry_eq (msg : TransformStamped) (s : State)
    (h : msg.child_frame_id ∈ interested_in) :
    (handle_observation msg s).gantry_transform
      = derive_gantry (handle_observation msg s) := by
  unfold handle_observation
  rw [if_pos h]
  simp only [upd0_eq, upd1_eq, upd2_eq, upd15_eq, upd5_eq]
  exact derive_gantry_congr _ _ rfl rfl

lemma handle_agv_char (msg : TransformStamped) (s : State)
    (h : msg.child_frame_id ∈ interested_in) :
    (handle_observation msg s).agv_transform
      = match (handle_observation msg s).marker_5 with
        | some m5 => some { m5 with child_frame_id := "agv_aruco" }
        | none => s.agv_transform := by
  unfold handle_observation
  rw [if_pos h]
  simp only [upd0_eq, upd1_eq, upd2_eq, upd15_eq, upd5_eq]
  rfl

lemma foldl_update_rotation (t0 : TransformStamped) (obs : List TransformStamped) :
    ∃ t, obs.foldl (fun slot msg => update_or_set msg slot) (some t0) = some t ∧
      t.transform.rotation = (obs.getLastD t0).transform.rotation := by
  induction obs generalizing t0 with
  | nil => exact ⟨t0, rfl, rfl⟩
  | cons a tl ih =>
    obtain ⟨t, ht, hrot⟩ := ih (filter_transform a t0)
    refine ⟨t, ?_, ?_⟩
    · simpa [update_or_set] using ht
    · rw [hrot, List.getLastD_cons]
      cases tl with
      | nil => simp [List.getLastD, filter_transform]
      | cons b tl2 => rw [List.getLastD_cons, List.getLastD_cons]

/-- C1: whenever the observation handler runs with both the marker-0 and
marker-1 slots occupied, the facade transform is marker 1's stored pose
with z replaced by 3.57, rotation `rot * rot2` where `rot` is the yaw
rotation about Z with `yaw = atan2 (m1.y - m0.y) (m1.x - m0.x)` and
`rot2` the fixed 180-degree (π radian) rotation about X, frame
`"facade_aruco"`, and marker 1's header timestamp; with either slot empty
the facade transform is set absent. -/
theorem C1_facade_derivation (msg : TransformStamped) (s : State)
    (hacc : msg.child_frame_id ∈ interested_in) :
    (∀ m0 m1, (handle_observation msg s).marker_0 = some m0 →
        (handle_observation msg s).marker_1 = some m1 →
      (handle_observation msg s).facade_transform = some
        { header := m1.header
        , child_frame_id := "facade_aruco"
        , transform :=
          { translation := { x := m1.transform.translation.x
                           , y := m1.transform.translation.y
                           , z := 3.57 }
          , rotation := quatMul
              (quatFromEuler 0 0
                (atan2 (m1.transform.translation.y - m0.transform.translation.y)
                       (m1.transform.translation.x - m0.transform.translation.x)))
              (quatFromEuler Real.pi 0 0) } }) ∧
    (((handle_observation msg s).marker_0 = none ∨
      (handle_observation msg s).marker_1 = none) →
      (handle_observation msg s).facade_transform = none) := by
  constructor
  · intro m0 m1 h0 h1
    rw [handle_facade_eq msg s hacc]
    unfold derive_facade
    rw [h0, h1]
    simp only [degToRad_180, degToRad_0]
  · intro h
    rw [handle_facade_eq msg s hacc]
    unfold derive_facade
    rcases h with h | h
    · rw [h]
    · rw [h]
      cases hm : (handle_observation msg s).marker_0 <;> rfl

/-- C1 witness: with markers 0 and 1 live at (0,0,0) and (1,1,0), an
accepted marker-5 observation leaves the facade at marker 1's position
with z = 3.57, yaw atan2 1 1, frame `"facade_aruco"`. -/
theorem C1_facade_derivation_witness :
    (handle_observation t5Ex sEx).facade_transform = some
      { header := t1Ex.header
      , child_frame_id := "facade_aruco"
      , transform :=
        { translation := { x := t1Ex.transform.translation.x
                         , y := t1Ex.transform.translation.y
                         , z := 3.57 }
        , rotation := quatMul
            (quatFromEuler 0 0
              (atan2 (t1Ex.transform.translation.y - t0Ex.transform.translation.y)
                     (t1Ex.transform.translation.x - t0Ex.transform.translation.x)))
            (quatFromEuler Real.pi 0 0) } } :=
  (C1_facade_derivation t5Ex sEx (by decide)).1 t0Ex t1Ex rfl rfl

/-- C2: whenever the observation handler runs with both the marker-15 and
marker-2 slots occupied, the gantry transform is marker 15's stored pose
with z replaced by 1.93, rotation `rot * rot2` where `rot` is the yaw
rotation about Z with `yaw = atan2 (m15.y - m2.y) (m15.x - m2.x)` and
`rot2` the fixed 180-degree rotation about X, frame `"gantry_aruco"`, and
marker 15's header timestamp; with either slot empty the gantry transform
is set absent. -/
theorem C2_gantry_derivation (msg : TransformStamped) (s : State)
    (hacc : msg.child_frame_id ∈ interested_in) :
    (∀ m15 m2, (handle_observation msg s).marker_15 = some m15 →
        (handle_observation msg s).marker_2 = some m2 →
      (handle_observation msg s).gantry_transform = some
        { header := m15.header
        , child_frame_id := "gantry_aruco"
        , transform :=
          { translation := { x := m15.transform.translation.x
                           , y := m15.transform.translation.y
                           , z := 1.93 }
          , rotation := quatMul
              (quatFromEuler 0 0
                (atan2 (m15.transform.translation.y - m2.transform.translation.y)
                       (m15.transform.translation.x - m2.transform.translation.x)))
              (quatFromEuler Real.pi 0 0) } }) ∧
    (((handle_observation msg s).marker_15 = none ∨
      (handle_observation msg s).marker_2 = none) →
      (handle_observation msg s).gantry_transform = none) := by
  constructor
  · intro m15 m2 h15 h2
    rw [handle_gantry_eq msg s hacc]
    unfold derive_gantry
    rw [h15, h2]
    simp only [degToRad_180, degToRad_0]
  · intro h
    rw [handle_gantry_eq msg s hacc]
    unfold derive_gantry
    rcases h with h | h
    · rw [h]
    · rw [h]
      cases hm : (handle_observation msg s).marker_15 <;> rfl

/-- C2 witness: with markers 15 and 2 live at (2,1,0) and (0,0,0), an
accepted marker-5 observation leaves the gantry at marker 15's position
with z = 1.93, yaw atan2 1 2, frame `"gantry_aruco"`. -/
theorem C2_gantry_derivation_witness :
    (handle_observation t5Ex sEx2).gantry_transform = some
      { header := t15Ex.header
      , child_frame_id := "gantry_aruco"
      , transform :=
        { translation := { x := t15Ex.transform.translation.x
                         , y := t15Ex.transform.translation.y
                         , z := 1.93 }
        , rotation := quatMul
            (quatFromEuler 0 0
              (atan2 (t15Ex.transform.translation.y - t2Ex.transform.translation.y)
                     (t15Ex.transform.translation.x - t2Ex.transform.translation.x)))
            (quatFromEuler Real.pi 0 0) } } :=
  (C2_gantry_derivation t5Ex sEx2 (by decide)).1 t15Ex t2Ex rfl rfl

/-- C6: an accepted observation for any tracked marker leaves the facade
and gantry transforms equal to their derivations from the resulting
state, while a sweep tick leaves the facade, gantry, agv and both locked
transforms exactly as they were (it touches only the five marker slots). -/
theorem C6_rederivation_and_sweep_frame (msg : TransformStamped) (s : State)
    (sec : Int) (hacc : msg.child_frame_id ∈ interested_in) :
    (handle_observation msg s).facade_transform
      = derive_facade (handle_observation msg s) ∧
    (handle_observation msg s).gantry_transform
      = derive_gantry (handle_observation msg s) ∧
    (sweep sec s).facade_transform = s.facade_transform ∧
    (sweep sec s).gantry_transform = s.gantry_transform ∧
    (sweep sec s).agv_transform = s.agv_transform ∧
    (sweep sec s).locked_facade_transform = s.locked_facade_transform ∧
    (sweep sec s).locked_gantry_transform = s.locked_gantry_transform :=
  ⟨handle_facade_eq msg s hacc, handle_gantry_eq msg s hacc, rfl, rfl, rfl, rfl, rfl⟩

/-- C6 witness: a marker-5 observation (which feeds neither facade nor
gantry) still recomputes the facade transform. -/
theorem C6_rederivation_and_sweep_frame_witness :
    (handle_observation t5Ex initState).facade_transform
      = derive_facade (handle_observation t5Ex initState) :=
  (C6_rederivation_and_sweep_frame t5Ex initState 0 (by decide)).1

/-- C7: with the marker-5 slot occupied after the update, the agv
transform becomes marker 5's pose with frame `"agv_aruco"`; with the slot
empty the previous agv transform is kept, so no operation (observation,
sweep, lock) ever sets a present agv transform absent. -/
theorem C7_agv_passthrough (msg : TransformStamped) (s : State) (sec : Int)
    (hacc : msg.child_frame_id ∈ interested_in) :
    (∀ m5, (handle_observation msg s).marker_5 = some m5 →
      (handle_observation msg s).agv_transform
        = some { m5 with child_frame_id := "agv_aruco" }) ∧
    ((handle_observation msg s).marker_5 = none →
      (handle_observation msg s).agv_transform = s.agv_transform) ∧
    ((handle_observation msg s).agv_transform = none → s.agv_transform = none) ∧
    (sweep sec s).agv_transform = s.agv_transform ∧
    (lock_handler s).1.agv_transform = s.agv_transform := by
  refine ⟨?_, ?_, ?_, rfl, rfl⟩
  · intro m5 h5
    rw [handle_agv_char msg s hacc, h5]
  · intro h5
    rw [handle_agv_char msg s hacc, h5]
  · intro hnone
    rcases hm : (handle_observation msg s).marker_5 with _ | m5
    · rw [handle_agv_char msg s hacc, hm] at hnone
      exact hnone
    · rw [handle_agv_char msg s hacc, hm] at hnone
      exact Option.noConfusion hnone

/-- C7 witness: a first marker-5 observation is stored verbatim and the
agv transform becomes that pose renamed to `"agv_aruco"`. -/
theorem C7_agv_passthrough_witness :
    (handle_observation t5Ex initState).agv_transform
      = some { t5Ex with child_frame_id := "agv_aruco" } :=
  (C7_agv_passthrough t5Ex initState 0 (by decide)).1 t5Ex rfl

/-- C3: an accepted observation on an occupied slot stores the filter's
output: each position component moves by one tenth of the difference, and
every other field (orientation, header with timestamp, frame id) is the
new observation's; `filter_transform` is a pure function of `(new, old)`. -/
theorem C3_occupied_slot_update (new old : TransformStamped) :
    update_or_set new (some old) = some (filter_transform new old) ∧
    (filter_transform new old).transform.translation.x
      = old.transform.translation.x
        + (new.transform.translation.x - old.transform.translation.x) / 10 ∧
    (filter_transform new old).transform.translation.y
      = old.transform.translation.y
        + (new.transform.translation.y - old.transform.translation.y) / 10 ∧
    (filter_transform new old).transform.translation.z
      = old.transform.translation.z
        + (new.transform.translation.z - old.transform.translation.z) / 10 ∧
    (filter_transform new old).transform.rotation = new.transform.rotation ∧
    (filter_transform new old).header = new.header ∧
    (filter_transform new old).child_frame_id = new.child_frame_id := by
  refine ⟨rfl, ?_, ?_, ?_, rfl, rfl, rfl⟩ <;> norm_num [filter_transform]

/-- C4: the sweep applies `expire` to exactly the five marker slots; a
non-empty slot is emptied iff `sec - stamp.sec > 5` (whole seconds only),
is kept verbatim otherwise, and an empty slot is a no-op. -/
theorem C4_staleness_expiry (sec : Int) (s : State) (t : TransformStamped) :
    ((sweep sec s).marker_0 = expire sec s.marker_0 ∧
     (sweep sec s).marker_1 = expire sec s.marker_1 ∧
     (sweep sec s).marker_2 = expire sec s.marker_2 ∧
     (sweep sec s).marker_15 = expire sec s.marker_15 ∧
     (sweep sec s).marker_5 = expire sec s.marker_5) ∧
    (expire sec (some t) = none ↔ sec - t.header.stamp.sec > 5) ∧
    (sec - t.header.stamp.sec ≤ 5 → expire sec (some t) = some t) ∧
    expire sec (none : Option TransformStamped) = none := by
  refine ⟨⟨rfl, rfl, rfl, rfl, rfl⟩, ?_, ?_, rfl⟩
  · unfold expire
    split <;> simp_all
    omega
  · intro h; simp only [expire]; rw [if_neg (not_lt.mpr h)]

/-- C4 witness: a fresh slot (age 0 seconds) survives a sweep tick. -/
theorem C4_staleness_expiry_witness : expire 0 (some tEx) = some tEx :=
  (C4_staleness_expiry 0 initState tEx).2.2.1 (by norm_num [tEx])

/-- C5: the lock handler copies the current facade and gantry transforms
(absent values included) into the locked fields, always answers
`success = true`, and formats the post-lock availability booleans. -/
theorem C5_lock_operation (s : State) :
    (lock_handler s).1.locked_facade_transform = s.facade_transform ∧
    (lock_handler s).1.locked_gantry_transform = s.gantry_transform ∧
    (lock_handler s).2.1 = true ∧
    (lock_handler s).2.2
      = "gantry: " ++ toString (lock_handler s).1.locked_gantry_transform.isSome
        ++ ", facade: " ++ toString (lock_handler s).1.locked_facade_transform.isSome :=
  ⟨rfl, rfl, rfl, rfl⟩

/-- C8: the first observation for a marker is stored verbatim; after it
the slot stays non-empty for the whole stream and its stored orientation
is always the latest observation's orientation. -/
theorem C8_marker_slot_liveness (first : TransformStamped) (rest : List TransformStamped) :
    update_or_set first none = some first ∧
    ∃ t, run_slot (first :: rest) = some t ∧
      t.transform.rotation = (rest.getLastD first).transform.rotation := by
  refine ⟨rfl, ?_⟩
  simpa [run_slot] using foldl_update_rotation first rest

/-- C9: locking twice with no intervening updates produces the same state
and in particular the same locked snapshot after each call. -/
theorem C9_lock_idempotent (s : State) :
    (lock_handler (lock_handler s).1).1.locked_facade_transform
      = (lock_handler s).1.locked_facade_transform ∧
    (lock_handler (lock_handler s).1).1.locked_gantry_transform
      = (lock_handler s).1.locked_gantry_transform ∧
    (lock_handler (lock_handler s).1).1 = (lock_handler s).1 :=
  ⟨rfl, rfl, rfl⟩

/-- C10: the lock handler changes only the two locked fields; every marker
slot and the current facade, gantry and agv transforms are untouched. -/
theorem C10_lock_frame (s : State) :
    (lock_handler s).1.marker_0 = s.marker_0 ∧
    (lock_handler s).1.marker_1 = s.marker_1 ∧
    (lock_handler s).1.marker_2 = s.marker_2 ∧
    (lock_handler s).1.marker_15 = s.marker_15 ∧
    (lock_handler s).1.marker_5 = s.marker_5 ∧
    (lock_handler s).1.facade_transform = s.facade_transform ∧
    (lock_handler s).1.gantry_transform = s.gantry_transform ∧
    (lock_handler s).1.agv_transform = s.agv_transform :=
  ⟨rfl, rfl, rfl, rfl, rfl, rfl, rfl, rfl⟩

end GantryEstimator
